import Mathlib

/-!
Verification of the fuel-core read/write consistency layer:
the unified read view (`crates/fuel-core/src/graphql_api/database.rs`)
and the genesis import handlers
(`crates/fuel-core/src/service/genesis/importer/on_chain.rs`),
shallowly embedded in Lean 4.
-/

namespace FuelCore

/-- Block height in the canonical chain (`fuel_core_types::fuel_types::BlockHeight`). -/
abbrev BlockHeight := Nat

/-- Position in the external data-availability log (`DaBlockHeight`). -/
abbrev DaBlockHeight := Nat

/-- Message nonce (`Nonce`). -/
abbrev Nonce := Nat

abbrev ContractId := Nat
abbrev AssetId := Nat
abbrev TxId := Nat
abbrev BlockId := Nat
abbrev Address := Nat
abbrev UtxoId := Nat
abbrev Salt := Nat
abbrev Bytes32 := Nat
abbrev Consensus := Nat
abbrev Transaction := Nat
abbrev MerkleProof := Nat
abbrev TransactionStatus := Nat
abbrev RelayedTransactionStatus := Nat
abbrev ContractBalance := Nat

/-- Store-level error (`fuel_core_storage::Error`), abstracted to a code. -/
abbrev StorageError := Nat

/-- Embeds `fuel_core_storage::Result` -/
abbrev StorageResult (α : Type) := Except StorageError α

/-- Embeds `fuel_core_storage::iter::IterDirection` -/
inductive IterDirection where
  | Forward
  | Reverse
deriving DecidableEq, Repr

/-- A compressed block; only its height matters to the range-merge logic. -/
structure CompressedBlock where
  height : BlockHeight
  data : Nat
deriving DecidableEq, Repr

/-- A relayer message (`fuel_core_types::entities::Message`), with the accessors
`id()` and `da_height()` used by the genesis importer. -/
structure Message where
  id : Nonce
  da_height : DaBlockHeight
  amount : Nat
deriving DecidableEq, Repr

/-- The on-chain (current-epoch) database view: the `OnChainDatabase` capability
set (`DatabaseBlocks`, `DatabaseMessages`, `DatabaseContracts`, `DatabaseChain`,
`DatabaseMessageProof`) as consumed by `ReadView`.  Iterators are embedded as
lists of row-or-error items. -/
structure OnChainDatabase where
  blocks : Option BlockHeight → IterDirection → List (StorageResult CompressedBlock)
  latest_height : StorageResult BlockHeight
  latest_genesis_height : StorageResult BlockHeight
  all_messages : Option Nonce → IterDirection → List (StorageResult Message)
  message_is_spent : Nonce → StorageResult Bool
  message_exists : Nonce → StorageResult Bool
  contract_balances :
    ContractId → Option AssetId → IterDirection → List (StorageResult ContractBalance)
  da_height : StorageResult DaBlockHeight
  block_history_proof : BlockHeight → BlockHeight → StorageResult MerkleProof

/-- The off-chain (historical-index) database view: the `OffChainDatabase`
capability set as consumed by `ReadView`. -/
structure OffChainDatabase where
  block_height : BlockId → StorageResult BlockHeight
  tx_status : TxId → StorageResult TransactionStatus
  owned_coins_ids : Address → Option UtxoId → IterDirection → List (StorageResult UtxoId)
  owned_message_ids : Address → Option Nonce → IterDirection → List (StorageResult Nonce)
  owned_transactions_ids :
    Address → Option Nat → IterDirection → List (StorageResult (Nat × TxId))
  contract_salt : ContractId → StorageResult Salt
  old_blocks : Option BlockHeight → IterDirection → List (StorageResult CompressedBlock)
  old_block_consensus : BlockHeight → StorageResult Consensus
  old_transaction : TxId → StorageResult (Option Transaction)
  relayed_tx_status : Bytes32 → StorageResult (Option RelayedTransactionStatus)

/-- Embeds `ReadView`: one on-chain view and one off-chain view composed into a single
query surface (`graphql_api/database.rs`). -/
structure ReadView where
  on_chain : OnChainDatabase
  off_chain : OffChainDatabase

/-- Embeds `ReadView::blocks` (`database.rs` lines 117-163): the merged block range
query.  Chaining of iterators is embedded as list append; `iter::once(Err(err))`
is the singleton error list. -/
def ReadView.blocks (self : ReadView) (height : Option BlockHeight)
    (direction : IterDirection) : List (StorageResult CompressedBlock) :=
  match height with
  | some height =>
    match self.on_chain.latest_genesis_height with
    | .ok onchain_start_height =>
      if height ≥ onchain_start_height then
        match direction with
        | IterDirection.Forward =>
          self.on_chain.blocks (some height) direction
        | IterDirection.Reverse =>
          self.on_chain.blocks (some height) direction ++
            self.off_chain.old_blocks none direction
      else
        match direction with
        | IterDirection.Forward =>
          self.off_chain.old_blocks (some height) direction ++
            self.on_chain.blocks none direction
        | IterDirection.Reverse =>
          self.off_chain.old_blocks (some height) direction
    | .error err => [Except.error err]
  | none =>
    match direction with
    | IterDirection.Forward =>
      self.off_chain.old_blocks none direction ++
        self.on_chain.blocks none direction
    | IterDirection.Reverse =>
      self.on_chain.blocks none direction ++
        self.off_chain.old_blocks none direction

/-- Embeds `ReadView::latest_height` -/
def ReadView.latest_height (self : ReadView) : StorageResult BlockHeight :=
  self.on_chain.latest_height

/-- Embeds `ReadView::latest_genesis_height` -/
def ReadView.latest_genesis_height (self : ReadView) : StorageResult BlockHeight :=
  self.on_chain.latest_genesis_height

/-- Embeds `DatabaseMessages for ReadView`: `all_messages` -/
def ReadView.all_messages (self : ReadView) (start_message_id : Option Nonce)
    (direction : IterDirection) : List (StorageResult Message) :=
  self.on_chain.all_messages start_message_id direction

/-- Embeds `DatabaseMessages for ReadView`: `message_is_spent` -/
def ReadView.message_is_spent (self : ReadView) (nonce : Nonce) : StorageResult Bool :=
  self.on_chain.message_is_spent nonce

/-- Embeds `DatabaseMessages for ReadView`: `message_exists` -/
def ReadView.message_exists (self : ReadView) (nonce : Nonce) : StorageResult Bool :=
  self.on_chain.message_exists nonce

/-- Embeds `DatabaseRelayedTransactions for ReadView`: `transaction_status` -/
def ReadView.transaction_status (self : ReadView) (id : Bytes32) :
    StorageResult (Option RelayedTransactionStatus) := do
  let maybe_status ← self.off_chain.relayed_tx_status id
  return maybe_status

/-- Embeds `DatabaseContracts for ReadView`: `contract_balances` -/
def ReadView.contract_balances (self : ReadView) (contract : ContractId)
    (start_asset : Option AssetId) (direction : IterDirection) :
    List (StorageResult ContractBalance) :=
  self.on_chain.contract_balances contract start_asset direction

/-- Embeds `DatabaseChain for ReadView`: `da_height` -/
def ReadView.da_height (self : ReadView) : StorageResult DaBlockHeight :=
  self.on_chain.da_height

/-- Embeds `DatabaseMessageProof for ReadView`: `block_history_proof` -/
def ReadView.block_history_proof (self : ReadView)
    (message_block_height commit_block_height : BlockHeight) :
    StorageResult MerkleProof :=
  self.on_chain.block_history_proof message_block_height commit_block_height

/-- Embeds `OffChainDatabase for ReadView`: `block_height` -/
def ReadView.block_height (self : ReadView) (block_id : BlockId) :
    StorageResult BlockHeight :=
  self.off_chain.block_height block_id

/-- Embeds `OffChainDatabase for ReadView`: `tx_status` -/
def ReadView.tx_status (self : ReadView) (tx_id : TxId) :
    StorageResult TransactionStatus :=
  self.off_chain.tx_status tx_id

/-- Embeds `OffChainDatabase for ReadView`: `owned_coins_ids` -/
def ReadView.owned_coins_ids (self : ReadView) (owner : Address)
    (start_coin : Option UtxoId) (direction : IterDirection) :
    List (StorageResult UtxoId) :=
  self.off_chain.owned_coins_ids owner start_coin direction

/-- Embeds `OffChainDatabase for ReadView`: `owned_message_ids` -/
def ReadView.owned_message_ids (self : ReadView) (owner : Address)
    (start_message_id : Option Nonce) (direction : IterDirection) :
    List (StorageResult Nonce) :=
  self.off_chain.owned_message_ids owner start_message_id direction

/-- Embeds `OffChainDatabase for ReadView`: `owned_transactions_ids` -/
def ReadView.owned_transactions_ids (self : ReadView) (owner : Address)
    (start : Option Nat) (direction : IterDirection) :
    List (StorageResult (Nat × TxId)) :=
  self.off_chain.owned_transactions_ids owner start direction

/-- Embeds `OffChainDatabase for ReadView`: `contract_salt` -/
def ReadView.contract_salt (self : ReadView) (contract_id : ContractId) :
    StorageResult Salt :=
  self.off_chain.contract_salt contract_id

/-- Embeds `OffChainDatabase for ReadView`: `old_blocks` -/
def ReadView.old_blocks (self : ReadView) (height : Option BlockHeight)
    (direction : IterDirection) : List (StorageResult CompressedBlock) :=
  self.off_chain.old_blocks height direction

/-- Embeds `OffChainDatabase for ReadView`: `old_block_consensus` -/
def ReadView.old_block_consensus (self : ReadView) (height : BlockHeight) :
    StorageResult Consensus :=
  self.off_chain.old_block_consensus height

/-- Embeds `OffChainDatabase for ReadView`: `old_transaction` -/
def ReadView.old_transaction (self : ReadView) (id : TxId) :
    StorageResult (Option Transaction) :=
  self.off_chain.old_transaction id

/-- Embeds `OffChainDatabase for ReadView`: `relayed_tx_status` -/
def ReadView.relayed_tx_status (self : ReadView) (id : Bytes32) :
    StorageResult (Option RelayedTransactionStatus) :=
  self.off_chain.relayed_tx_status id

/-! ## Genesis import (`service/genesis/importer/on_chain.rs`) -/

/-- Embeds `TxPointer`: a pointer to the block (and tx index) where an entity was created. -/
structure TxPointer where
  block_height : BlockHeight
  tx_index : Nat
deriving DecidableEq, Repr

/-- The value stored in the `Coins` table (`CompressedCoin`): a coin without its
`utxo_id` (which is the key). -/
structure CompressedCoin where
  owner : Address
  amount : Nat
  asset_id : AssetId
  tx_pointer : TxPointer
deriving DecidableEq, Repr

/-- Embeds `Coin`: a full coin; `compress` drops the `utxo_id`. -/
structure Coin where
  utxo_id : UtxoId
  owner : Address
  amount : Nat
  asset_id : AssetId
  tx_pointer : TxPointer
deriving DecidableEq, Repr

/-- Embeds `Coin::compress` -/
def Coin.compress (c : Coin) : CompressedCoin :=
  { owner := c.owner, amount := c.amount, asset_id := c.asset_id,
    tx_pointer := c.tx_pointer }

/-- The value stored in `ContractsLatestUtxo` (`ContractUtxoInfo`). -/
structure ContractUtxoInfo where
  utxo_id : UtxoId
  tx_pointer : TxPointer
deriving DecidableEq, Repr

/-- Contract bytecode, the value of `ContractsRawCode`. -/
abbrev RawCode := List Nat

/-- Embeds `fuel_core_chain_config::TableEntry`: one key/value row of a snapshot table. -/
structure TableEntry (K V : Type) where
  key : K
  value : V
deriving DecidableEq, Repr

/-- First-match lookup in an association list (our embedding of a per-table
key/value map inside the write transaction). -/
def alist_get {V : Type} (m : List (Nat × V)) (k : Nat) : Option V :=
  (m.find? (fun p => p.1 == k)).map Prod.snd

/-- Embeds `insert(key, value)` of the write transaction: returns the previous value
for the key, if any, and the updated map (new binding shadows the old one). -/
def alist_insert {V : Type} (m : List (Nat × V)) (k : Nat) (v : V) :
    Option V × List (Nat × V) :=
  (alist_get m k, (k, v) :: m)

/-- The staged state of the genesis `StorageTransaction`: one map per simple
per-row table, plus (modelled from the spec, see `update_contract_states` /
`update_contract_balances`) the log of bulk-merge invocations for the two
trie-backed tables. -/
structure StorageTransaction where
  coins : List (UtxoId × CompressedCoin)
  messages : List (Nonce × Message)
  contracts_raw_code : List (ContractId × RawCode)
  contracts_latest_utxo : List (ContractId × ContractUtxoInfo)
  contracts_state_merges : List (List (TableEntry Nat Nat))
  contracts_balance_merges : List (List (TableEntry Nat Nat))
deriving Repr

/-- Modelled from the spec: `update_contract_states` (the `StateInitializer`
bulk-merge primitive of the destination store, not part of this excerpt) is an
external collaborator that merges a whole batch of contract key/value state
rows into the contract's trie; we record each invocation with its batch. -/
def StorageTransaction.update_contract_states (tx : StorageTransaction)
    (group : List (TableEntry Nat Nat)) : Except String StorageTransaction :=
  .ok { tx with contracts_state_merges := tx.contracts_state_merges ++ [group] }

/-- Modelled from the spec: `update_contract_balances` (the
`BalancesInitializer` bulk-merge primitive of the destination store, not part
of this excerpt) merges a whole batch of contract asset-balance rows; we record
each invocation with its batch. -/
def StorageTransaction.update_contract_balances (tx : StorageTransaction)
    (group : List (TableEntry Nat Nat)) : Except String StorageTransaction :=
  .ok { tx with contracts_balance_merges := tx.contracts_balance_merges ++ [group] }

/-- Embeds `init_coin` (`on_chain.rs` lines 132-165): causal-bound check on the coin's
tx-pointer height, then duplicate-checked insert into `Coins`. -/
def init_coin (transaction : StorageTransaction)
    (coin : TableEntry UtxoId CompressedCoin) (height : BlockHeight) :
    Except String StorageTransaction :=
  let utxo_id := coin.key
  let compressed_coin : CompressedCoin :=
    (Coin.mk utxo_id coin.value.owner coin.value.amount coin.value.asset_id
      coin.value.tx_pointer).compress
  let coin_height := coin.value.tx_pointer.block_height
  if coin_height > height then
    .error s!"coin tx_pointer height ({coin_height}) cannot be greater than genesis block ({height})"
  else
    match alist_insert transaction.coins utxo_id compressed_coin with
    | (some _, _) => .error "Coin should not exist"
    | (none, coins) => .ok { transaction with coins := coins }

/-- Embeds `init_contract_latest_utxo` (`on_chain.rs` lines 167-189). -/
def init_contract_latest_utxo (transaction : StorageTransaction)
    (entry : TableEntry ContractId ContractUtxoInfo) (height : BlockHeight) :
    Except String StorageTransaction :=
  let contract_id := entry.key
  if entry.value.tx_pointer.block_height > height then
    .error "contract tx_pointer cannot be greater than genesis block"
  else
    match alist_insert transaction.contracts_latest_utxo contract_id entry.value with
    | (some _, _) => .error "Contract utxo should not exist"
    | (none, m) => .ok { transaction with contracts_latest_utxo := m }

/-- Embeds `init_contract_raw_code` (`on_chain.rs` lines 191-208): duplicate-checked
insert only, no causal bound. -/
def init_contract_raw_code (transaction : StorageTransaction)
    (entry : TableEntry ContractId RawCode) : Except String StorageTransaction :=
  let contract := entry.value
  let contract_id := entry.key
  match alist_insert transaction.contracts_raw_code contract_id contract with
  | (some _, _) => .error "Contract code should not exist"
  | (none, m) => .ok { transaction with contracts_raw_code := m }

/-- Embeds `init_da_message` (`on_chain.rs` lines 210-232): causal-bound check on the
message's DA height, then duplicate-checked insert keyed by `message.id()`. -/
def init_da_message (transaction : StorageTransaction)
    (msg : TableEntry Nonce Message) (da_height : DaBlockHeight) :
    Except String StorageTransaction :=
  let message := msg.value
  if message.da_height > da_height then
    .error "message da_height cannot be greater than genesis da block height"
  else
    match alist_insert transaction.messages message.id message with
    | (some _, _) => .error "Message should not exist"
    | (none, m) => .ok { transaction with messages := m }

/-- The import `Handler` context: the target genesis block height and genesis
DA height. -/
structure Handler where
  block_height : BlockHeight
  da_block_height : DaBlockHeight
deriving Repr

/-- Embeds `Handler<Coins, Coins>::process`: `try_for_each` over the batch, embedded as
a monadic fold that stops at the first error. -/
def Handler.process_coins (self : Handler)
    (group : List (TableEntry UtxoId CompressedCoin)) (tx : StorageTransaction) :
    Except String StorageTransaction :=
  group.foldlM (fun t coin => init_coin t coin self.block_height) tx

/-- Embeds `Handler<Messages, Messages>::process` -/
def Handler.process_messages (self : Handler)
    (group : List (TableEntry Nonce Message)) (tx : StorageTransaction) :
    Except String StorageTransaction :=
  group.foldlM (fun t message => init_da_message t message self.da_block_height) tx

/-- Embeds `Handler<ContractsRawCode, ContractsRawCode>::process` -/
def Handler.process_contracts_raw_code (_self : Handler)
    (group : List (TableEntry ContractId RawCode)) (tx : StorageTransaction) :
    Except String StorageTransaction :=
  group.foldlM (fun t contract => init_contract_raw_code t contract) tx

/-- Embeds `Handler<ContractsLatestUtxo, ContractsLatestUtxo>::process` -/
def Handler.process_contracts_latest_utxo (self : Handler)
    (group : List (TableEntry ContractId ContractUtxoInfo)) (tx : StorageTransaction) :
    Except String StorageTransaction :=
  group.foldlM (fun t contract => init_contract_latest_utxo t contract self.block_height) tx

/-- Embeds `Handler<ContractsState, ContractsState>::process`: one bulk merge per batch. -/
def Handler.process_contracts_state (_self : Handler)
    (group : List (TableEntry Nat Nat)) (tx : StorageTransaction) :
    Except String StorageTransaction := do
  let tx ← tx.update_contract_states group
  return tx

/-- Embeds `Handler<ContractsAssets, ContractsAssets>::process`: one bulk merge per batch. -/
def Handler.process_contracts_assets (_self : Handler)
    (group : List (TableEntry Nat Nat)) (tx : StorageTransaction) :
    Except String StorageTransaction := do
  let tx ← tx.update_contract_balances group
  return tx

/-! ## Snapshot view provider (`AtomicView::latest_view`), modelled from the spec -/

/-- Modelled from the spec: a backing store as the ordered log of its committed
writes.  The `AtomicView` provider itself is not part of this excerpt; the spec
requires `new_view() -> View` to reflect all writes committed before the call
and none committed after. -/
structure Store where
  log : List (Nat × Nat)
deriving Repr

/-- Committing one write appends it to the store's log. -/
def Store.commit (s : Store) (w : Nat × Nat) : Store :=
  { log := s.log ++ [w] }

/-- Committing a sequence of writes, in order. -/
def Store.commit_all (s : Store) (ws : List (Nat × Nat)) : Store :=
  ws.foldl Store.commit s

/-- Modelled from the spec: an immutable snapshot handle pinned to the store's
state at creation time. -/
structure View where
  snapshot : List (Nat × Nat)
deriving Repr

/-- Modelled from the spec: `latest_view()` pins the current committed log. -/
def Store.latest_view (s : Store) : View :=
  { snapshot := s.log }

/-- The value a key resolves to in a write log: the last committed write wins. -/
def log_lookup (log : List (Nat × Nat)) (k : Nat) : Option Nat :=
  (log.filter (fun p => p.1 == k)).getLast?.map Prod.snd

/-- A point query issued against a view: resolved purely from its pinned snapshot. -/
def View.get (v : View) (k : Nat) : Option Nat :=
  log_lookup v.snapshot k

/-- The two backing stores behind a `ReadDatabase`. -/
structure StoreReadDatabase where
  on_chain : Store
  off_chain : Store
deriving Repr

/-- The pair of snapshot handles a `ReadView` owns. -/
structure StoreReadView where
  on_chain : View
  off_chain : View
deriving Repr

/-- Embeds `ReadDatabase::view` (`database.rs` lines 100-108): takes `latest_view()`
of each provider. -/
def StoreReadDatabase.view (db : StoreReadDatabase) : StoreReadView :=
  { on_chain := db.on_chain.latest_view, off_chain := db.off_chain.latest_view }

/-- A query against the read view routed to its on-chain snapshot. -/
def StoreReadView.get_on_chain (v : StoreReadView) (k : Nat) : Option Nat :=
  v.on_chain.get k

/-- A query against the read view routed to its off-chain snapshot. -/
def StoreReadView.get_off_chain (v : StoreReadView) (k : Nat) : Option Nat :=
  v.off_chain.get k

/-- Committing writes to both backing stores after some point in time. -/
def StoreReadDatabase.commit_writes (db : StoreReadDatabase)
    (ws_on ws_off : List (Nat × Nat)) : StoreReadDatabase :=
  { on_chain := db.on_chain.commit_all ws_on,
    off_chain := db.off_chain.commit_all ws_off }

/-! ## Concrete fixtures used by witnesses and counterexamples -/

/-- Heights of the successfully returned rows of a block range query. -/
def result_heights (l : List (StorageResult CompressedBlock)) : List Nat :=
  l.filterMap (fun i => match i with | .ok b => some b.height | .error _ => none)

/-- Blocks held by the sample historical-index store: heights 0, 1, 2. -/
def histBlocks : List CompressedBlock := [⟨0, 10⟩, ⟨1, 11⟩, ⟨2, 12⟩]

/-- Blocks held by the sample current-epoch store: heights 3, 4, 5
(regenesis boundary 3). -/
def currBlocks : List CompressedBlock := [⟨3, 13⟩, ⟨4, 14⟩, ⟨5, 15⟩]

/-- A sample on-chain view over `currBlocks`, returning exactly its own height
range in the requested direction; boundary 3. -/
def sampleOn : OnChainDatabase where
  blocks := fun h d =>
    match h, d with
    | none, IterDirection.Forward => currBlocks.map .ok
    | none, IterDirection.Reverse => currBlocks.reverse.map .ok
    | some h, IterDirection.Forward =>
      (currBlocks.filter (fun b => h ≤ b.height)).map .ok
    | some h, IterDirection.Reverse =>
      ((currBlocks.filter (fun b => b.height ≤ h)).reverse).map .ok
  latest_height := .ok 5
  latest_genesis_height := .ok 3
  all_messages := fun _ _ => []
  message_is_spent := fun _ => .ok false
  message_exists := fun _ => .ok false
  contract_balances := fun _ _ _ => []
  da_height := .ok 0
  block_history_proof := fun _ _ => .ok 0

/-- A sample off-chain view over `histBlocks`, returning exactly its own height
range in the requested direction. -/
def sampleOff : OffChainDatabase where
  block_height := fun _ => .ok 0
  tx_status := fun _ => .ok 0
  owned_coins_ids := fun _ _ _ => []
  owned_message_ids := fun _ _ _ => []
  owned_transactions_ids := fun _ _ _ => []
  contract_salt := fun _ => .ok 0
  old_blocks := fun h d =>
    match h, d with
    | none, IterDirection.Forward => histBlocks.map .ok
    | none, IterDirection.Reverse => histBlocks.reverse.map .ok
    | some h, IterDirection.Forward =>
      (histBlocks.filter (fun b => h ≤ b.height)).map .ok
    | some h, IterDirection.Reverse =>
      ((histBlocks.filter (fun b => b.height ≤ h)).reverse).map .ok
  old_block_consensus := fun _ => .ok 0
  old_transaction := fun _ => .ok none
  relayed_tx_status := fun _ => .ok none

/-- The sample unified read view. -/
def sampleRV : ReadView := ⟨sampleOn, sampleOff⟩

/-- A sample on-chain view whose regenesis-boundary query fails with error 7. -/
def sampleErrOn : OnChainDatabase :=
  { sampleOn with latest_genesis_height := .error 7 }

/-- The sample read view whose boundary lookup fails. -/
def sampleErrRV : ReadView := ⟨sampleErrOn, sampleOff⟩

/-- The empty staged transaction. -/
def emptyTx : StorageTransaction := ⟨[], [], [], [], [], []⟩

/-- A sample import handler: genesis block height 10, genesis DA height 20. -/
def sampleHandler : Handler := ⟨10, 20⟩

/-- Concrete coin entry at the genesis height (10). -/
def coinAt : TableEntry UtxoId CompressedCoin := ⟨1, ⟨2, 100, 3, ⟨10, 0⟩⟩⟩

/-- Concrete coin entry one block after the genesis height. -/
def coinAfter : TableEntry UtxoId CompressedCoin := ⟨4, ⟨2, 100, 3, ⟨11, 0⟩⟩⟩

/-- Concrete contract latest-UTXO entry at the genesis height. -/
def cuAt : TableEntry ContractId ContractUtxoInfo := ⟨5, ⟨6, ⟨10, 1⟩⟩⟩

/-- Concrete contract latest-UTXO entry one block after the genesis height. -/
def cuAfter : TableEntry ContractId ContractUtxoInfo := ⟨7, ⟨8, ⟨11, 1⟩⟩⟩

/-- Concrete message entry at the genesis DA height (20). -/
def msgAt : TableEntry Nonce Message := ⟨9, ⟨9, 20, 50⟩⟩

/-- Concrete message entry one DA block after the genesis DA height. -/
def msgAfter : TableEntry Nonce Message := ⟨11, ⟨11, 21, 60⟩⟩

/-- A second coin entry sharing `coinAt`'s key. -/
def coinDup : TableEntry UtxoId CompressedCoin := ⟨1, ⟨12, 200, 13, ⟨9, 2⟩⟩⟩

/-- Concrete contract raw-code entries sharing a key. -/
def rawA : TableEntry ContractId RawCode := ⟨6, [1, 2, 3]⟩

/-- The other raw-code entry with the same key. -/
def rawB : TableEntry ContractId RawCode := ⟨6, [4, 5]⟩

/-- A second latest-UTXO entry sharing `cuAt`'s key. -/
def cuDup : TableEntry ContractId ContractUtxoInfo := ⟨5, ⟨16, ⟨8, 3⟩⟩⟩

/-- A second message entry sharing `msgAt`'s message id. -/
def msgDup : TableEntry Nonce Message := ⟨15, ⟨9, 18, 70⟩⟩

/-! ## Helper lemmas -/

/-- Committing a sequence of writes appends them, in order, to the store log. -/
theorem Store.commit_all_log (s : Store) (ws : List (Nat × Nat)) :
    (s.commit_all ws).log = s.log ++ ws := by
  induction ws generalizing s with
  | nil => simp [Store.commit_all]
  | cons w ws ih =>
    show (Store.commit_all (s.commit w) ws).log = _
    rw [ih]
    simp [Store.commit]

/-- Lookup at the key just inserted at the front of the map finds it. -/
theorem alist_get_cons_self {V : Type} (k : Nat) (v : V) (m : List (Nat × V)) :
    alist_get ((k, v) :: m) k = some v := by
  simp [alist_get]

/-- Lemma: `init_coin` succeeds on a causally bounded coin with a fresh key, staging
the compressed coin at the front of the `Coins` map. -/
theorem init_coin_ok (tx : StorageTransaction) (coin : TableEntry UtxoId CompressedCoin)
    (height : BlockHeight)
    (hcausal : coin.value.tx_pointer.block_height ≤ height)
    (hfresh : alist_get tx.coins coin.key = none) :
    init_coin tx coin height = .ok { tx with coins :=
      (coin.key, (Coin.mk coin.key coin.value.owner coin.value.amount
        coin.value.asset_id coin.value.tx_pointer).compress) :: tx.coins } := by
  simp only [init_coin, alist_insert]
  rw [if_neg (not_lt.mpr hcausal), hfresh]

/-- Lemma: `init_coin` fails with the duplicate-key error when the key is taken. -/
theorem init_coin_dup (tx : StorageTransaction) (coin : TableEntry UtxoId CompressedCoin)
    (height : BlockHeight) (c : CompressedCoin)
    (hcausal : coin.value.tx_pointer.block_height ≤ height)
    (hdup : alist_get tx.coins coin.key = some c) :
    init_coin tx coin height = .error "Coin should not exist" := by
  simp only [init_coin, alist_insert]
  rw [if_neg (not_lt.mpr hcausal), hdup]

/-- Lemma: `init_contract_latest_utxo` succeeds on a causally bounded entry with a
fresh key. -/
theorem init_contract_latest_utxo_ok (tx : StorageTransaction)
    (entry : TableEntry ContractId ContractUtxoInfo) (height : BlockHeight)
    (hcausal : entry.value.tx_pointer.block_height ≤ height)
    (hfresh : alist_get tx.contracts_latest_utxo entry.key = none) :
    init_contract_latest_utxo tx entry height = .ok { tx with
      contracts_latest_utxo := (entry.key, entry.value) :: tx.contracts_latest_utxo } := by
  simp only [init_contract_latest_utxo, alist_insert]
  rw [if_neg (not_lt.mpr hcausal), hfresh]

/-- Lemma: `init_contract_latest_utxo` fails with the duplicate-key error when the
key is taken. -/
theorem init_contract_latest_utxo_dup (tx : StorageTransaction)
    (entry : TableEntry ContractId ContractUtxoInfo) (height : BlockHeight)
    (c : ContractUtxoInfo)
    (hcausal : entry.value.tx_pointer.block_height ≤ height)
    (hdup : alist_get tx.contracts_latest_utxo entry.key = some c) :
    init_contract_latest_utxo tx entry height = .error "Contract utxo should not exist" := by
  simp only [init_contract_latest_utxo, alist_insert]
  rw [if_neg (not_lt.mpr hcausal), hdup]

/-- Lemma: `init_contract_raw_code` succeeds on a fresh key. -/
theorem init_contract_raw_code_ok (tx : StorageTransaction)
    (entry : TableEntry ContractId RawCode)
    (hfresh : alist_get tx.contracts_raw_code entry.key = none) :
    init_contract_raw_code tx entry = .ok { tx with
      contracts_raw_code := (entry.key, entry.value) :: tx.contracts_raw_code } := by
  simp only [init_contract_raw_code, alist_insert]
  rw [hfresh]

/-- Lemma: `init_contract_raw_code` fails with the duplicate-key error when the key
is taken. -/
theorem init_contract_raw_code_dup (tx : StorageTransaction)
    (entry : TableEntry ContractId RawCode) (c : RawCode)
    (hdup : alist_get tx.contracts_raw_code entry.key = some c) :
    init_contract_raw_code tx entry = .error "Contract code should not exist" := by
  simp only [init_contract_raw_code, alist_insert]
  rw [hdup]

/-- Lemma: `init_da_message` succeeds on a causally bounded message whose id is fresh. -/
theorem init_da_message_ok (tx : StorageTransaction) (msg : TableEntry Nonce Message)
    (da_height : DaBlockHeight)
    (hcausal : msg.value.da_height ≤ da_height)
    (hfresh : alist_get tx.messages msg.value.id = none) :
    init_da_message tx msg da_height = .ok { tx with
      messages := (msg.value.id, msg.value) :: tx.messages } := by
  simp only [init_da_message, alist_insert]
  rw [if_neg (not_lt.mpr hcausal), hfresh]

/-- Lemma: `init_da_message` fails with the duplicate-key error when the id is taken. -/
theorem init_da_message_dup (tx : StorageTransaction) (msg : TableEntry Nonce Message)
    (da_height : DaBlockHeight) (c : Message)
    (hcausal : msg.value.da_height ≤ da_height)
    (hdup : alist_get tx.messages msg.value.id = some c) :
    init_da_message tx msg da_height = .error "Message should not exist" := by
  simp only [init_da_message, alist_insert]
  rw [if_neg (not_lt.mpr hcausal), hdup]

/-! ## Claims -/

/-- C5: when `blocks` is called with no starting height, the forward iteration
is exactly the historical-index sequence chained with the current-epoch
sequence, and the reverse iteration is exactly the current-epoch sequence
chained with the historical-index sequence — plain concatenation, never an
interleaving. -/
theorem blocks_no_start_concatenation (rv : ReadView) :
    rv.blocks none IterDirection.Forward =
      rv.off_chain.old_blocks none IterDirection.Forward ++
        rv.on_chain.blocks none IterDirection.Forward ∧
    rv.blocks none IterDirection.Reverse =
      rv.on_chain.blocks none IterDirection.Reverse ++
        rv.off_chain.old_blocks none IterDirection.Reverse :=
  ⟨rfl, rfl⟩

/-- C7: every point lookup on the unified read view is routed to exactly one
source and never consults the other: message existence, message-spent flag,
contract balances, DA height, block-history Merkle proof and latest height go
only to the on-chain view (their result equals the on-chain method's result
and is independent of the off-chain component), while transaction status,
owned-coin/owned-message/owned-transaction index lookups, contract salt,
relayed-transaction status, and old blocks, old consensus records and old
transactions go only to the off-chain view. -/
theorem point_lookup_routing :
    ∀ (onA onB : OnChainDatabase) (offA offB : OffChainDatabase),
    (∀ n, (ReadView.mk onA offA).message_exists n = onA.message_exists n ∧
      (ReadView.mk onA offA).message_exists n = (ReadView.mk onA offB).message_exists n) ∧
    (∀ n, (ReadView.mk onA offA).message_is_spent n = onA.message_is_spent n ∧
      (ReadView.mk onA offA).message_is_spent n = (ReadView.mk onA offB).message_is_spent n) ∧
    (∀ c s d, (ReadView.mk onA offA).contract_balances c s d = onA.contract_balances c s d ∧
      (ReadView.mk onA offA).contract_balances c s d = (ReadView.mk onA offB).contract_balances c s d) ∧
    ((ReadView.mk onA offA).da_height = onA.da_height ∧
      (ReadView.mk onA offA).da_height = (ReadView.mk onA offB).da_height) ∧
    (∀ mh ch, (ReadView.mk onA offA).block_history_proof mh ch = onA.block_history_proof mh ch ∧
      (ReadView.mk onA offA).block_history_proof mh ch = (ReadView.mk onA offB).block_history_proof mh ch) ∧
    ((ReadView.mk onA offA).latest_height = onA.latest_height ∧
      (ReadView.mk onA offA).latest_height = (ReadView.mk onA offB).latest_height) ∧
    (∀ id, (ReadView.mk onA offA).tx_status id = offA.tx_status id ∧
      (ReadView.mk onA offA).tx_status id = (ReadView.mk onB offA).tx_status id) ∧
    (∀ o sc d, (ReadView.mk onA offA).owned_coins_ids o sc d = offA.owned_coins_ids o sc d ∧
      (ReadView.mk onA offA).owned_coins_ids o sc d = (ReadView.mk onB offA).owned_coins_ids o sc d) ∧
    (∀ o sm d, (ReadView.mk onA offA).owned_message_ids o sm d = offA.owned_message_ids o sm d ∧
      (ReadView.mk onA offA).owned_message_ids o sm d = (ReadView.mk onB offA).owned_message_ids o sm d) ∧
    (∀ o st d, (ReadView.mk onA offA).owned_transactions_ids o st d = offA.owned_transactions_ids o st d ∧
      (ReadView.mk onA offA).owned_transactions_ids o st d = (ReadView.mk onB offA).owned_transactions_ids o st d) ∧
    (∀ cid, (ReadView.mk onA offA).contract_salt cid = offA.contract_salt cid ∧
      (ReadView.mk onA offA).contract_salt cid = (ReadView.mk onB offA).contract_salt cid) ∧
    (∀ id, (ReadView.mk onA offA).relayed_tx_status id = offA.relayed_tx_status id ∧
      (ReadView.mk onA offA).relayed_tx_status id = (ReadView.mk onB offA).relayed_tx_status id) ∧
    (∀ id, (ReadView.mk onA offA).transaction_status id = offA.relayed_tx_status id ∧
      (ReadView.mk onA offA).transaction_status id = (ReadView.mk onB offA).transaction_status id) ∧
    (∀ h d, (ReadView.mk onA offA).old_blocks h d = offA.old_blocks h d ∧
      (ReadView.mk onA offA).old_blocks h d = (ReadView.mk onB offA).old_blocks h d) ∧
    (∀ h, (ReadView.mk onA offA).old_block_consensus h = offA.old_block_consensus h ∧
      (ReadView.mk onA offA).old_block_consensus h = (ReadView.mk onB offA).old_block_consensus h) ∧
    (∀ id, (ReadView.mk onA offA).old_transaction id = offA.old_transaction id ∧
      (ReadView.mk onA offA).old_transaction id = (ReadView.mk onB offA).old_transaction id) := by
  intro onA onB offA offB
  refine ⟨fun n => ⟨rfl, rfl⟩, fun n => ⟨rfl, rfl⟩, fun c s d => ⟨rfl, rfl⟩,
    ⟨rfl, rfl⟩, fun mh ch => ⟨rfl, rfl⟩, ⟨rfl, rfl⟩, fun id => ⟨rfl, rfl⟩,
    fun o sc d => ⟨rfl, rfl⟩, fun o sm d => ⟨rfl, rfl⟩, fun o st d => ⟨rfl, rfl⟩,
    fun cid => ⟨rfl, rfl⟩, fun id => ⟨rfl, rfl⟩, fun id => ⟨?_, rfl⟩,
    fun h d => ⟨rfl, rfl⟩, fun h => ⟨rfl, rfl⟩, fun id => ⟨rfl, rfl⟩⟩
  unfold ReadView.transaction_status
  cases offA.relayed_tx_status id <;> rfl

/-- C8: for the contract key/value state table and the contract asset balances
table, the import handler invokes the destination store's bulk merge primitive
exactly once per batch (the invocation log grows by exactly the one batch) and
performs no per-row insert, duplicate-key check or causal-bound check at this
layer: it succeeds unconditionally and touches nothing else in the
transaction. -/
theorem bulk_merge_once_per_batch (handler : Handler) (tx : StorageTransaction)
    (group : List (TableEntry Nat Nat)) :
    handler.process_contracts_state group tx =
      .ok { tx with contracts_state_merges := tx.contracts_state_merges ++ [group] } ∧
    handler.process_contracts_assets group tx =
      .ok { tx with contracts_balance_merges := tx.contracts_balance_merges ++ [group] } :=
  ⟨rfl, rfl⟩

/-- C4 counterexample: with no starting height, the boundary is never
consulted, so a failing boundary query does not fail the merged range query —
the claim's "including no starting height" is false on the code. -/
theorem boundary_error_no_start_counterexample :
    sampleErrRV.on_chain.latest_genesis_height = Except.error 7 ∧
    sampleErrRV.blocks none IterDirection.Forward ≠ [Except.error 7] := by
  refine ⟨rfl, fun h => ?_⟩
  have hlen := congrArg List.length h
  rw [show (sampleErrRV.blocks none IterDirection.Forward).length = 6 from rfl] at hlen
  simp at hlen

/-- C4 (amended): for every given starting height (the `Some` case) and every
direction, if reading the regenesis boundary from the current-epoch source
fails with error `e`, the merged range query fails entirely with that same
error and yields no partial results. -/
theorem boundary_error_fails_query_with_start (rv : ReadView) (h : BlockHeight)
    (d : IterDirection) (e : StorageError)
    (herr : rv.on_chain.latest_genesis_height = .error e) :
    rv.blocks (some h) d = [Except.error e] := by
  unfold ReadView.blocks
  rw [herr]

/-- C4 witness: the amended theorem at the failing sample view. -/
theorem boundary_error_fails_query_with_start_witness :
    sampleErrRV.blocks (some 0) IterDirection.Forward = [Except.error 7] :=
  boundary_error_fails_query_with_start sampleErrRV 0 IterDirection.Forward 7 rfl

/-- C9: a view created by `ReadDatabase::view` reflects exactly the writes
committed to each backing store before its creation (its answers are computed
from the pre-existing logs only, so writes committed afterwards are never
observed through it), while a view taken after the later commits reflects
them. -/
theorem view_isolation (db : StoreReadDatabase) (ws_on ws_off : List (Nat × Nat))
    (k : Nat) :
    db.view.get_on_chain k = log_lookup db.on_chain.log k ∧
    db.view.get_off_chain k = log_lookup db.off_chain.log k ∧
    (db.commit_writes ws_on ws_off).view.get_on_chain k =
      log_lookup (db.on_chain.log ++ ws_on) k ∧
    (db.commit_writes ws_on ws_off).view.get_off_chain k =
      log_lookup (db.off_chain.log ++ ws_off) k := by
  refine ⟨rfl, rfl, ?_, ?_⟩ <;>
    simp [StoreReadDatabase.commit_writes, StoreReadDatabase.view,
      StoreReadView.get_on_chain, StoreReadView.get_off_chain,
      Store.latest_view, View.get, Store.commit_all_log]

/-- C1: for a given starting height `h`, the merged range query follows the
four-way case split on `(h ≥ boundary, direction)`: at/after the boundary
forward it returns current-epoch rows from `h` onward only; at/after the
boundary reverse it returns current-epoch rows from `h` backward followed by
the entire historical range; before the boundary forward it returns
historical rows with height in `[h, boundary)` followed by current-epoch rows
with height `≥ max h boundary`; before the boundary reverse it returns
historical rows from `h` backward only — under the hypothesis that each source
returns exactly its own height range in the requested direction. -/
theorem blocks_start_height_case_split
    (rv : ReadView) (hist curr : List CompressedBlock) (boundary h : Nat)
    (hgen : rv.on_chain.latest_genesis_height = .ok boundary)
    (hhist : ∀ b ∈ hist, b.height < boundary)
    (hcurr : ∀ b ∈ curr, boundary ≤ b.height)
    (honF : rv.on_chain.blocks (some h) IterDirection.Forward =
      (curr.filter (fun b => h ≤ b.height)).map .ok)
    (honR : rv.on_chain.blocks (some h) IterDirection.Reverse =
      ((curr.filter (fun b => b.height ≤ h)).reverse).map .ok)
    (honNF : rv.on_chain.blocks none IterDirection.Forward = curr.map .ok)
    (hoffF : rv.off_chain.old_blocks (some h) IterDirection.Forward =
      (hist.filter (fun b => h ≤ b.height)).map .ok)
    (hoffR : rv.off_chain.old_blocks (some h) IterDirection.Reverse =
      ((hist.filter (fun b => b.height ≤ h)).reverse).map .ok)
    (hoffNR : rv.off_chain.old_blocks none IterDirection.Reverse =
      hist.reverse.map .ok) :
    (boundary ≤ h → rv.blocks (some h) IterDirection.Forward =
      (curr.filter (fun b => h ≤ b.height)).map .ok) ∧
    (boundary ≤ h → rv.blocks (some h) IterDirection.Reverse =
      ((curr.filter (fun b => b.height ≤ h)).reverse).map .ok ++
        hist.reverse.map .ok) ∧
    (h < boundary → rv.blocks (some h) IterDirection.Forward =
      (hist.filter (fun b => h ≤ b.height ∧ b.height < boundary)).map .ok ++
        (curr.filter (fun b => max h boundary ≤ b.height)).map .ok) ∧
    (h < boundary → rv.blocks (some h) IterDirection.Reverse =
      ((hist.filter (fun b => b.height ≤ h)).reverse).map .ok) := by
  simp only [ReadView.blocks, hgen, ge_iff_le]
  refine ⟨fun hb => ?_, fun hb => ?_, fun hb => ?_, fun hb => ?_⟩
  · rw [if_pos hb]
    exact honF
  · rw [if_pos hb]
    rw [honR, hoffNR]
  · rw [if_neg (not_le.mpr hb)]
    rw [hoffF, honNF]
    have h1 : hist.filter (fun b => decide (h ≤ b.height)) =
        hist.filter (fun b => decide (h ≤ b.height ∧ b.height < boundary)) := by
      refine List.filter_congr fun b hb2 => ?_
      simp [hhist b hb2]
    have h2 : curr.filter (fun b => decide (max h boundary ≤ b.height)) = curr := by
      refine List.filter_eq_self.mpr fun b hb2 => ?_
      rw [Nat.max_eq_right (Nat.le_of_lt hb)]
      exact decide_eq_true (hcurr b hb2)
    rw [h1, h2]
  · rw [if_neg (not_le.mpr hb)]
    exact hoffR

/-- C1 witness: the case split at the sample view with boundary 3 and starting
height 1. -/
theorem blocks_start_height_case_split_witness :
    ((3 : Nat) ≤ 1 → sampleRV.blocks (some 1) IterDirection.Forward =
      (currBlocks.filter (fun b => 1 ≤ b.height)).map .ok) ∧
    ((3 : Nat) ≤ 1 → sampleRV.blocks (some 1) IterDirection.Reverse =
      ((currBlocks.filter (fun b => b.height ≤ 1)).reverse).map .ok ++
        histBlocks.reverse.map .ok) ∧
    ((1 : Nat) < 3 → sampleRV.blocks (some 1) IterDirection.Forward =
      (histBlocks.filter (fun b => 1 ≤ b.height ∧ b.height < 3)).map .ok ++
        (currBlocks.filter (fun b => max 1 3 ≤ b.height)).map .ok) ∧
    ((1 : Nat) < 3 → sampleRV.blocks (some 1) IterDirection.Reverse =
      ((histBlocks.filter (fun b => b.height ≤ 1)).reverse).map .ok) :=
  blocks_start_height_case_split sampleRV histBlocks currBlocks 3 1
    rfl (by decide) (by decide) rfl rfl rfl rfl rfl rfl

/-- C6 counterexample: at the sample view (boundary 3, stored heights 0..5)
with starting height 4, the reverse query is not the reverse of the forward
query, and the two do not even cover the same set of heights. -/
theorem blocks_reverse_not_reverse_of_forward :
    sampleRV.blocks (some 4) IterDirection.Reverse ≠
      (sampleRV.blocks (some 4) IterDirection.Forward).reverse ∧
    ¬ (∀ x : Nat,
        x ∈ result_heights (sampleRV.blocks (some 4) IterDirection.Forward) ↔
        x ∈ result_heights (sampleRV.blocks (some 4) IterDirection.Reverse)) := by
  constructor
  · intro h
    have hlen := congrArg List.length h
    rw [show (sampleRV.blocks (some 4) IterDirection.Reverse).length = 5 from rfl,
      show ((sampleRV.blocks (some 4) IterDirection.Forward).reverse).length = 2
        from rfl] at hlen
    simp at hlen
  · intro hall
    have h5 := (hall 5).mp (by decide)
    exact absurd h5 (by decide)

/-- C6 (amended): under the hypothesis that each source returns exactly its
own height range in the requested direction, `blocks(Some h, Forward)` is the
full merged historical-then-current chain restricted to heights `≥ h` in
forward order, and `blocks(Some h, Reverse)` is the exact reverse of the full
merged chain restricted to heights `≤ h` — not the reverse of
`blocks(Some h, Forward)`: the two directions cover complementary height
ranges that meet only at `h`. -/
theorem blocks_directions_restrict_merged_chain
    (rv : ReadView) (hist curr : List CompressedBlock) (boundary h : Nat)
    (hgen : rv.on_chain.latest_genesis_height = .ok boundary)
    (hhist : ∀ b ∈ hist, b.height < boundary)
    (hcurr : ∀ b ∈ curr, boundary ≤ b.height)
    (honF : rv.on_chain.blocks (some h) IterDirection.Forward =
      (curr.filter (fun b => h ≤ b.height)).map .ok)
    (honR : rv.on_chain.blocks (some h) IterDirection.Reverse =
      ((curr.filter (fun b => b.height ≤ h)).reverse).map .ok)
    (honNF : rv.on_chain.blocks none IterDirection.Forward = curr.map .ok)
    (hoffF : rv.off_chain.old_blocks (some h) IterDirection.Forward =
      (hist.filter (fun b => h ≤ b.height)).map .ok)
    (hoffR : rv.off_chain.old_blocks (some h) IterDirection.Reverse =
      ((hist.filter (fun b => b.height ≤ h)).reverse).map .ok)
    (hoffNR : rv.off_chain.old_blocks none IterDirection.Reverse =
      hist.reverse.map .ok) :
    rv.blocks (some h) IterDirection.Forward =
      (((hist ++ curr).filter (fun b => h ≤ b.height)).map .ok) ∧
    rv.blocks (some h) IterDirection.Reverse =
      ((((hist ++ curr).filter (fun b => b.height ≤ h)).reverse).map .ok) := by
  simp only [ReadView.blocks, hgen, ge_iff_le]
  rw [List.filter_append, List.filter_append]
  by_cases hb : boundary ≤ h
  · rw [if_pos hb, if_pos hb]
    have hnil : hist.filter (fun b => decide (h ≤ b.height)) = [] := by
      rw [List.filter_eq_nil_iff]
      intro b hb2
      simp only [decide_eq_true_eq]
      exact Nat.not_le.mpr (Nat.lt_of_lt_of_le (hhist b hb2) hb)
    have hall : hist.filter (fun b => decide (b.height ≤ h)) = hist := by
      refine List.filter_eq_self.mpr fun b hb2 => ?_
      exact decide_eq_true (Nat.le_of_lt (Nat.lt_of_lt_of_le (hhist b hb2) hb))
    constructor
    · rw [honF, hnil, List.nil_append]
    · show rv.on_chain.blocks (some h) IterDirection.Reverse ++
        rv.off_chain.old_blocks none IterDirection.Reverse = _
      rw [honR, hoffNR, hall, List.reverse_append, List.map_append]
  · rw [if_neg hb, if_neg hb]
    have hb2 : h < boundary := Nat.not_le.mp hb
    have hall : curr.filter (fun b => decide (h ≤ b.height)) = curr := by
      refine List.filter_eq_self.mpr fun b hbc => ?_
      exact decide_eq_true (Nat.le_of_lt (Nat.lt_of_lt_of_le hb2 (hcurr b hbc)))
    have hnil : curr.filter (fun b => decide (b.height ≤ h)) = [] := by
      rw [List.filter_eq_nil_iff]
      intro b hbc
      simp only [decide_eq_true_eq]
      exact Nat.not_le.mpr (Nat.lt_of_lt_of_le hb2 (hcurr b hbc))
    constructor
    · show rv.off_chain.old_blocks (some h) IterDirection.Forward ++
        rv.on_chain.blocks none IterDirection.Forward = _
      rw [hoffF, honNF, hall, List.map_append]
    · rw [hoffR, hnil, List.append_nil]

/-- C6 witness: the amended theorem at the sample view with boundary 3 and
starting height 4. -/
theorem blocks_directions_restrict_merged_chain_witness :
    sampleRV.blocks (some 4) IterDirection.Forward =
      (((histBlocks ++ currBlocks).filter (fun b => 4 ≤ b.height)).map .ok) ∧
    sampleRV.blocks (some 4) IterDirection.Reverse =
      ((((histBlocks ++ currBlocks).filter (fun b => b.height ≤ 4)).reverse).map .ok) :=
  blocks_directions_restrict_merged_chain sampleRV histBlocks currBlocks 3 4
    rfl (by decide) (by decide) rfl rfl rfl rfl rfl rfl

/-- C2: during genesis import, a record whose recorded origin point equals the
declared genesis point is accepted and one strictly later is rejected: a coin
whose tx-pointer height equals the genesis height is accepted (given a fresh
key) and one at genesis height + 1 is rejected; likewise for a contract's
latest-UTXO tx-pointer height against the genesis height and a message's DA
height against the genesis DA height. -/
theorem genesis_causal_boundary
    (tx : StorageTransaction) (height : BlockHeight) (da : DaBlockHeight)
    (coin_at coin_after : TableEntry UtxoId CompressedCoin)
    (cu_at cu_after : TableEntry ContractId ContractUtxoInfo)
    (m_at m_after : TableEntry Nonce Message)
    (hc1 : coin_at.value.tx_pointer.block_height = height)
    (hc2 : alist_get tx.coins coin_at.key = none)
    (hc3 : coin_after.value.tx_pointer.block_height = height + 1)
    (hu1 : cu_at.value.tx_pointer.block_height = height)
    (hu2 : alist_get tx.contracts_latest_utxo cu_at.key = none)
    (hu3 : cu_after.value.tx_pointer.block_height = height + 1)
    (hm1 : m_at.value.da_height = da)
    (hm2 : alist_get tx.messages m_at.value.id = none)
    (hm3 : m_after.value.da_height = da + 1) :
    (∃ tx2, init_coin tx coin_at height = .ok tx2) ∧
    (init_coin tx coin_after height = .error
      s!"coin tx_pointer height ({height + 1}) cannot be greater than genesis block ({height})") ∧
    (∃ tx2, init_contract_latest_utxo tx cu_at height = .ok tx2) ∧
    (init_contract_latest_utxo tx cu_after height = .error
      "contract tx_pointer cannot be greater than genesis block") ∧
    (∃ tx2, init_da_message tx m_at da = .ok tx2) ∧
    (init_da_message tx m_after da = .error
      "message da_height cannot be greater than genesis da block height") := by
  refine ⟨⟨_, init_coin_ok tx coin_at height (le_of_eq hc1) hc2⟩, ?_,
    ⟨_, init_contract_latest_utxo_ok tx cu_at height (le_of_eq hu1) hu2⟩, ?_,
    ⟨_, init_da_message_ok tx m_at da (le_of_eq hm1) hm2⟩, ?_⟩
  · simp only [init_coin]
    rw [hc3, if_pos (Nat.lt_succ_self height)]
  · simp only [init_contract_latest_utxo]
    rw [hu3, if_pos (Nat.lt_succ_self height)]
  · simp only [init_da_message]
    rw [hm3, if_pos (Nat.lt_succ_self da)]

/-- C2 witness: the accept/reject boundary at genesis height 10 and genesis
DA height 20 on the empty transaction. -/
theorem genesis_causal_boundary_witness :
    (∃ tx2, init_coin emptyTx coinAt 10 = .ok tx2) ∧
    (init_coin emptyTx coinAfter 10 = .error
      s!"coin tx_pointer height ({10 + 1}) cannot be greater than genesis block ({10})") ∧
    (∃ tx2, init_contract_latest_utxo emptyTx cuAt 10 = .ok tx2) ∧
    (init_contract_latest_utxo emptyTx cuAfter 10 = .error
      "contract tx_pointer cannot be greater than genesis block") ∧
    (∃ tx2, init_da_message emptyTx msgAt 20 = .ok tx2) ∧
    (init_da_message emptyTx msgAfter 20 = .error
      "message da_height cannot be greater than genesis da block height") :=
  genesis_causal_boundary emptyTx 10 20 coinAt coinAfter cuAt cuAfter msgAt msgAfter
    rfl rfl rfl rfl rfl rfl rfl rfl rfl

/-- C3: for each simple per-row table (coins, contract raw code, contract
latest-UTXO), importing two causally valid entries that share a key makes the
handler return the duplicate-key error, regardless of which of the two comes
first in the batch: the insert of the second entry observes the value staged
by the first and fails. -/
theorem duplicate_key_rejected
    (handler : Handler) (tx : StorageTransaction)
    (e1 e2 : TableEntry UtxoId CompressedCoin)
    (r1 r2 : TableEntry ContractId RawCode)
    (u1 u2 : TableEntry ContractId ContractUtxoInfo)
    (hek : e1.key = e2.key)
    (hc1 : e1.value.tx_pointer.block_height ≤ handler.block_height)
    (hc2 : e2.value.tx_pointer.block_height ≤ handler.block_height)
    (hcf : alist_get tx.coins e1.key = none)
    (hrk : r1.key = r2.key)
    (hrf : alist_get tx.contracts_raw_code r1.key = none)
    (huk : u1.key = u2.key)
    (hu1 : u1.value.tx_pointer.block_height ≤ handler.block_height)
    (hu2 : u2.value.tx_pointer.block_height ≤ handler.block_height)
    (huf : alist_get tx.contracts_latest_utxo u1.key = none) :
    handler.process_coins [e1, e2] tx = .error "Coin should not exist" ∧
    handler.process_coins [e2, e1] tx = .error "Coin should not exist" ∧
    handler.process_contracts_raw_code [r1, r2] tx =
      .error "Contract code should not exist" ∧
    handler.process_contracts_raw_code [r2, r1] tx =
      .error "Contract code should not exist" ∧
    handler.process_contracts_latest_utxo [u1, u2] tx =
      .error "Contract utxo should not exist" ∧
    handler.process_contracts_latest_utxo [u2, u1] tx =
      .error "Contract utxo should not exist" := by
  have hcf2 : alist_get tx.coins e2.key = none := hek ▸ hcf
  have hrf2 : alist_get tx.contracts_raw_code r2.key = none := hrk ▸ hrf
  have huf2 : alist_get tx.contracts_latest_utxo u2.key = none := huk ▸ huf
  refine ⟨?_, ?_, ?_, ?_, ?_, ?_⟩
  · have s1 := init_coin_ok tx e1 handler.block_height hc1 hcf
    have s2 : init_coin { tx with coins := (e1.key,
        (Coin.mk e1.key e1.value.owner e1.value.amount e1.value.asset_id
          e1.value.tx_pointer).compress) :: tx.coins } e2 handler.block_height =
        .error "Coin should not exist" :=
      init_coin_dup _ _ _ _ hc2 (by rw [← hek]; exact alist_get_cons_self _ _ _)
    simp [Handler.process_coins, List.foldlM, s1, s2, Bind.bind, Except.bind]
  · have s1 := init_coin_ok tx e2 handler.block_height hc2 hcf2
    have s2 : init_coin { tx with coins := (e2.key,
        (Coin.mk e2.key e2.value.owner e2.value.amount e2.value.asset_id
          e2.value.tx_pointer).compress) :: tx.coins } e1 handler.block_height =
        .error "Coin should not exist" :=
      init_coin_dup _ _ _ _ hc1 (by rw [hek]; exact alist_get_cons_self _ _ _)
    simp [Handler.process_coins, List.foldlM, s1, s2, Bind.bind, Except.bind]
  · have s1 := init_contract_raw_code_ok tx r1 hrf
    have s2 : init_contract_raw_code { tx with contracts_raw_code :=
        (r1.key, r1.value) :: tx.contracts_raw_code } r2 =
        .error "Contract code should not exist" :=
      init_contract_raw_code_dup _ _ _
        (by rw [← hrk]; exact alist_get_cons_self _ _ _)
    simp [Handler.process_contracts_raw_code, List.foldlM, s1, s2, Bind.bind,
      Except.bind]
  · have s1 := init_contract_raw_code_ok tx r2 hrf2
    have s2 : init_contract_raw_code { tx with contracts_raw_code :=
        (r2.key, r2.value) :: tx.contracts_raw_code } r1 =
        .error "Contract code should not exist" :=
      init_contract_raw_code_dup _ _ _
        (by rw [hrk]; exact alist_get_cons_self _ _ _)
    simp [Handler.process_contracts_raw_code, List.foldlM, s1, s2, Bind.bind,
      Except.bind]
  · have s1 := init_contract_latest_utxo_ok tx u1 handler.block_height hu1 huf
    have s2 : init_contract_latest_utxo { tx with contracts_latest_utxo :=
        (u1.key, u1.value) :: tx.contracts_latest_utxo } u2 handler.block_height =
        .error "Contract utxo should not exist" :=
      init_contract_latest_utxo_dup _ _ _ _ hu2
        (by rw [← huk]; exact alist_get_cons_self _ _ _)
    simp [Handler.process_contracts_latest_utxo, List.foldlM, s1, s2, Bind.bind,
      Except.bind]
  · have s1 := init_contract_latest_utxo_ok tx u2 handler.block_height hu2 huf2
    have s2 : init_contract_latest_utxo { tx with contracts_latest_utxo :=
        (u2.key, u2.value) :: tx.contracts_latest_utxo } u1 handler.block_height =
        .error "Contract utxo should not exist" :=
      init_contract_latest_utxo_dup _ _ _ _ hu1
        (by rw [huk]; exact alist_get_cons_self _ _ _)
    simp [Handler.process_contracts_latest_utxo, List.foldlM, s1, s2, Bind.bind,
      Except.bind]

/-- C3 witness: duplicate keys rejected in both orders for the three simple
per-row tables, at the sample handler on the empty transaction. -/
theorem duplicate_key_rejected_witness :
    sampleHandler.process_coins [coinAt, coinDup] emptyTx =
      .error "Coin should not exist" ∧
    sampleHandler.process_coins [coinDup, coinAt] emptyTx =
      .error "Coin should not exist" ∧
    sampleHandler.process_contracts_raw_code [rawA, rawB] emptyTx =
      .error "Contract code should not exist" ∧
    sampleHandler.process_contracts_raw_code [rawB, rawA] emptyTx =
      .error "Contract code should not exist" ∧
    sampleHandler.process_contracts_latest_utxo [cuAt, cuDup] emptyTx =
      .error "Contract utxo should not exist" ∧
    sampleHandler.process_contracts_latest_utxo [cuDup, cuAt] emptyTx =
      .error "Contract utxo should not exist" :=
  duplicate_key_rejected sampleHandler emptyTx coinAt coinDup rawA rawB cuAt cuDup
    rfl (by decide) (by decide) rfl rfl rfl rfl (by decide) (by decide) rfl

/-- C10: importing two message table entries with the same message id makes
the Messages handler return the error "Message should not exist", in either
batch order — the duplicate-key check applies to messages exactly as to the
simple per-row tables, though the spec does not list messages among the
duplicate-checked tables. -/
theorem message_duplicate_rejected
    (handler : Handler) (tx : StorageTransaction)
    (m1 m2 : TableEntry Nonce Message)
    (hid : m1.value.id = m2.value.id)
    (hd1 : m1.value.da_height ≤ handler.da_block_height)
    (hd2 : m2.value.da_height ≤ handler.da_block_height)
    (hf : alist_get tx.messages m1.value.id = none) :
    handler.process_messages [m1, m2] tx = .error "Message should not exist" ∧
    handler.process_messages [m2, m1] tx = .error "Message should not exist" := by
  have hf2 : alist_get tx.messages m2.value.id = none := hid ▸ hf
  constructor
  · have s1 := init_da_message_ok tx m1 handler.da_block_height hd1 hf
    have s2 : init_da_message { tx with messages :=
        (m1.value.id, m1.value) :: tx.messages } m2 handler.da_block_height =
        .error "Message should not exist" :=
      init_da_message_dup _ _ _ _ hd2
        (by rw [← hid]; exact alist_get_cons_self _ _ _)
    simp [Handler.process_messages, List.foldlM, s1, s2, Bind.bind, Except.bind]
  · have s1 := init_da_message_ok tx m2 handler.da_block_height hd2 hf2
    have s2 : init_da_message { tx with messages :=
        (m2.value.id, m2.value) :: tx.messages } m1 handler.da_block_height =
        .error "Message should not exist" :=
      init_da_message_dup _ _ _ _ hd1
        (by rw [hid]; exact alist_get_cons_self _ _ _)
    simp [Handler.process_messages, List.foldlM, s1, s2, Bind.bind, Except.bind]

/-- C10 witness: duplicate message ids rejected in both orders at the sample
handler on the empty transaction. -/
theorem message_duplicate_rejected_witness :
    sampleHandler.process_messages [msgAt, msgDup] emptyTx =
      .error "Message should not exist" ∧
    sampleHandler.process_messages [msgDup, msgAt] emptyTx =
      .error "Message should not exist" :=
  message_duplicate_rejected sampleHandler emptyTx msgAt msgDup
    rfl (by decide) (by decide) rfl

end FuelCore
